import Mathlib

/-!
Verification development for the qdrant-sync MCP server (src/server.py).

The server is embedded shallowly: each HTTP exchange is a value of
`HttpOutcome` (status code plus parsed body, or a raised transport
exception), the two Qdrant instances are `Store` values mapping requests
to such outcomes, the external sync subprocess is a `ProcOutcome`, and
the filesystem of log files is a `LogDir`.  Every helper function and
tool-dispatch branch of server.py is translated into a total Lean
function over these inputs; wall-clock time (datetime.now().isoformat())
is passed in as an explicit `now : String` argument.
-/

set_option autoImplicit false

namespace QdrantSync

/-- Outcome of `httpx.AsyncClient.get` inside the `try` blocks of
server.py: either a response with a status code and a parsed JSON body,
or a raised exception carrying its string rendering `str(e)`. -/
inductive HttpOutcome (β : Type) where
  | ok (statusCode : Nat) (body : β)
  | exn (msg : String)
deriving DecidableEq

/-- One element of the `result.collections` array of `GET {url}/collections`:
`c.get("name")` may be absent, hence `Option`. -/
structure CollEntry where
  name : Option String
deriving DecidableEq

/-- Parsed body of `GET {url}/collections`; `collections` is the value of
`data.get("result", {}).get("collections", [])`, i.e. the chain of
defaulting lookups is already applied (a body with a missing key is the
body with `collections = []`). -/
structure CollectionsBody where
  collections : List CollEntry
deriving DecidableEq

/-- Parsed body of `GET {url}/collections/{name}` after `data.get("result", {})`;
each field is `Option` because `result.get(key, default)` defaults it. -/
structure CollectionInfoBody where
  status : Option String
  points_count : Option Int
  vectors_count : Option Int
  indexed_vectors_count : Option Int
deriving DecidableEq

/-- Return value of `check_qdrant_connectivity`: a dict whose `"status"`
key is one of `"connected"`, `"error"`, `"unreachable"`. -/
inductive ConnectivityReport where
  | connected (url : String) (collection_count : Nat) (collections : List (Option String))
  | error (url : String) (error : String)
  | unreachable (url : String) (error : String)
deriving DecidableEq

/-- `check_qdrant_connectivity(url, api_key)` (server.py lines 72-101),
as a function of the HTTP outcome of `GET {url}/collections`. -/
def check_qdrant_connectivity (url : String) (resp : HttpOutcome CollectionsBody) :
    ConnectivityReport :=
  match resp with
  | .ok code body =>
      if code = 200 then
        .connected url body.collections.length (body.collections.map (·.name))
      else
        .error url ("HTTP " ++ toString code)
  | .exn e => .unreachable url e

/-- `report.get("status") == "connected"`. -/
def isConnected : ConnectivityReport → Bool
  | .connected _ _ _ => true
  | _ => false

/-- The collection-name list of a connected report, `conn.get("collections", [])`. -/
def reportCollections : ConnectivityReport → List (Option String)
  | .connected _ _ cs => cs
  | _ => []

/-- Return value of `get_collection_info` (server.py lines 104-126): either
the detailed dict (HTTP 200) or a dict with `"name"` and `"error"` keys.
The name is `Option String` because the names iterated over in
`get_all_collections_with_counts` come from `c.get("name")`. -/
inductive CollInfo where
  | ok (name : Option String) (status : String)
      (points_count vectors_count indexed_vectors_count : Int)
  | err (name : Option String) (error : String)
deriving DecidableEq

/-- The `"name"` key, always present in both shapes of the dict. -/
def CollInfo.name : CollInfo → Option String
  | .ok n _ _ _ _ => n
  | .err n _ => n

/-- `info.get("points_count", 0)`: the error-shaped dict has no
`points_count` key, so the lookup defaults to 0. -/
def CollInfo.points : CollInfo → Int
  | .ok _ _ p _ _ => p
  | .err _ _ => 0

/-- `get_collection_info(url, name, api_key)` as a function of the HTTP
outcome of `GET {url}/collections/{name}`. -/
def get_collection_info (name : Option String) (resp : HttpOutcome CollectionInfoBody) :
    CollInfo :=
  match resp with
  | .ok code body =>
      if code = 200 then
        .ok name (body.status.getD "unknown") (body.points_count.getD 0)
          (body.vectors_count.getD 0) (body.indexed_vectors_count.getD 0)
      else
        .err name ("HTTP " ++ toString code)
  | .exn e => .err name e

/-- One Qdrant instance as seen through HTTP: the outcome of the
inventory request and, per collection name, the outcome of the detail
request.  server.py formats the name into the URL, so a `none` name
would request the literal path `/collections/None`; the map is keyed by
the optional name to keep that case representable. -/
structure Store where
  url : String
  collectionsResp : HttpOutcome CollectionsBody
  infoResp : Option String → HttpOutcome CollectionInfoBody

/-- Strict lexicographic comparison on code-point sequences, the order
Python uses for `str`. -/
def charsLt : List Char → List Char → Bool
  | [], [] => false
  | [], _ :: _ => true
  | _ :: _, [] => false
  | a :: as, b :: bs =>
      if a.toNat < b.toNat then true
      else if b.toNat < a.toNat then false
      else charsLt as bs

/-- Lexicographic `a <= b` on strings (Python's `str` comparison). -/
def strLe (a b : String) : Bool := !(charsLt b.data a.data)

/-- Comparison key used when sorting stat dicts and collection names.
In Python, `None` compared with a `str` raises `TypeError`; the claims
never exercise mixed lists, and we order `none` first. -/
def optNameLe : Option String → Option String → Bool
  | none, _ => true
  | some _, none => false
  | some a, some b => strLe a b

/-- Insert into a sorted list, keeping existing elements first on ties
(matches the stability of Python's `sorted`). -/
def insertSorted {α : Type} (le : α → α → Bool) (x : α) : List α → List α
  | [] => [x]
  | y :: ys => if le y x then y :: insertSorted le x ys else x :: y :: ys

/-- Stable insertion sort standing in for Python's `sorted`. -/
def sortBy {α : Type} (le : α → α → Bool) : List α → List α
  | [] => []
  | x :: xs => insertSorted le x (sortBy le xs)

/-- `get_all_collections_with_counts(url, api_key)` (server.py lines
129-140): empty when the probe is not connected, otherwise the per-name
stats sorted by name ascending. -/
def get_all_collections_with_counts (s : Store) : List CollInfo :=
  let conn := check_qdrant_connectivity s.url s.collectionsResp
  if isConnected conn then
    sortBy (fun a b => optNameLe a.name b.name)
      ((reportCollections conn).map (fun n => get_collection_info n (s.infoResp n)))
  else
    []

/-- Result of the `qdrant_sync_status` tool (server.py lines 365-377).
The JSON keys are `timestamp`, `local`, `vps`, `sync_ready`; `local` and
`vps` are spelt `local_status` / `vps_status` here because `local` is a
Lean keyword. -/
structure StatusResult where
  timestamp : String
  local_status : ConnectivityReport
  vps_status : ConnectivityReport
  sync_ready : Bool
deriving DecidableEq

/-- The `qdrant_sync_status` branch of `call_tool`: probes both endpoints
and reports readiness.  `now` is `datetime.now().isoformat()`. -/
def qdrant_sync_status (lresp vresp : HttpOutcome CollectionsBody)
    (lurl vurl now : String) : StatusResult :=
  let ls := check_qdrant_connectivity lurl lresp
  let vs := check_qdrant_connectivity vurl vresp
  { timestamp := now
    local_status := ls
    vps_status := vs
    sync_ready := isConnected ls && isConnected vs }

/-- One row of the all-collections comparison (server.py lines 462-470).
The JSON key `vps_only` is the code's name for what the spec calls
`remote_only`. -/
structure Entry where
  name : Option String
  local_points : Int
  vps_points : Int
  difference : Int
  in_sync : Bool
  local_only : Bool
  vps_only : Bool
deriving DecidableEq

/-- The `summary` object of the all-collections comparison (server.py
lines 474-482). -/
structure Summary where
  total_collections : Nat
  local_collections : Nat
  vps_collections : Nat
  out_of_sync : Nat
  total_local_points : Int
  total_vps_points : Int
  total_difference : Int
deriving DecidableEq

/-- Full result of `qdrant_compare_collections` without a
`collection_name` argument. -/
structure CompareAllResult where
  timestamp : String
  summary : Summary
  collections : List Entry
deriving DecidableEq

/-- `{c["name"]: c for c in cs}.get(n)`: a Python dict comprehension
keeps the last entry per key, so the lookup returns the last match. -/
def dictLookup (cs : List CollInfo) (n : Option String) : Option CollInfo :=
  (cs.filter (fun c => c.name = n)).getLast?

/-- The distinct keys of `{c["name"]: c for c in cs}`, in first-occurrence
order (only their count and membership matter downstream). -/
def dictKeys (cs : List CollInfo) : List (Option String) :=
  (cs.map CollInfo.name).eraseDups

/-- `d.get(name, {"points_count": 0, "missing": True})`: either a real
stat dict or the sentinel. -/
inductive StatOrSentinel where
  | stat (c : CollInfo)
  | sentinel
deriving DecidableEq

/-- `lookupStat cs n` is the defaulting dict lookup of server.py lines
449-450. -/
def lookupStat (cs : List CollInfo) (n : Option String) : StatOrSentinel :=
  match dictLookup cs n with
  | some c => .stat c
  | none => .sentinel

/-- `info.get("points_count", 0)` on a stat-or-sentinel dict. -/
def statPoints : StatOrSentinel → Int
  | .stat c => c.points
  | .sentinel => 0

/-- `info.get("missing", False)` (also the bare `info.get("missing")` of
line 458, whose `None` default is falsy just the same). -/
def statMissing : StatOrSentinel → Bool
  | .stat _ => false
  | .sentinel => true

/-- The entry built for one name in the loop of server.py lines 448-470. -/
def mkEntry (localCs vpsCs : List CollInfo) (n : Option String) : Entry :=
  let li := lookupStat localCs n
  let vi := lookupStat vpsCs n
  let lp := statPoints li
  let vp := statPoints vi
  { name := n
    local_points := lp
    vps_points := vp
    difference := lp - vp
    in_sync := lp == vp && !statMissing li && !statMissing vi
    local_only := statMissing vi
    vps_only := statMissing li }

/-- The loop accumulator of server.py lines 443-470: `comparison`,
`total_local_points`, `total_vps_points`, `out_of_sync`. -/
structure CompareAcc where
  comparison : List Entry
  total_local_points : Int
  total_vps_points : Int
  out_of_sync : Nat
deriving DecidableEq

/-- One iteration of the `for name in sorted(all_names)` loop. -/
def compareStep (localCs vpsCs : List CollInfo) (acc : CompareAcc) (n : Option String) :
    CompareAcc :=
  let e := mkEntry localCs vpsCs n
  { comparison := acc.comparison ++ [e]
    total_local_points := acc.total_local_points + e.local_points
    total_vps_points := acc.total_vps_points + e.vps_points
    out_of_sync := acc.out_of_sync + (if e.in_sync then 0 else 1) }

/-- `sorted(set(local_dict.keys()) | set(vps_dict.keys()))`. -/
def allNames (localCs vpsCs : List CollInfo) : List (Option String) :=
  sortBy optNameLe ((dictKeys localCs ++ dictKeys vpsCs).eraseDups)

/-- The all-collections branch of `qdrant_compare_collections`
(server.py lines 432-484), from the two stores' HTTP behaviour and the
wall-clock reading. -/
def qdrant_compare_all (ls vs : Store) (now : String) : CompareAllResult :=
  let localCs := get_all_collections_with_counts ls
  let vpsCs := get_all_collections_with_counts vs
  let names := allNames localCs vpsCs
  let acc := names.foldl (compareStep localCs vpsCs) ⟨[], 0, 0, 0⟩
  { timestamp := now
    summary :=
      { total_collections := names.length
        local_collections := (dictKeys localCs).length
        vps_collections := (dictKeys vpsCs).length
        out_of_sync := acc.out_of_sync
        total_local_points := acc.total_local_points
        total_vps_points := acc.total_vps_points
        total_difference := acc.total_local_points - acc.total_vps_points }
    collections := acc.comparison }

/-- Result of `qdrant_compare_collections` with a `collection_name`
argument (server.py lines 417-431); JSON keys `local` and `vps` are spelt
`local_info` / `vps_info`. -/
structure CompareSingleResult where
  collection : String
  local_info : CollInfo
  vps_info : CollInfo
  in_sync : Bool
  difference : Int
deriving DecidableEq

/-- The single-collection branch of `qdrant_compare_collections`, from
the HTTP outcomes of the two per-collection detail requests. -/
def qdrant_compare_single (name : String)
    (lresp vresp : HttpOutcome CollectionInfoBody) : CompareSingleResult :=
  let li := get_collection_info (some name) lresp
  let vi := get_collection_info (some name) vresp
  let lp := li.points
  let vp := vi.points
  { collection := name
    local_info := li
    vps_info := vi
    in_sync := lp == vp
    difference := lp - vp }

/-- Default path of the forward sync script (`SYNC_SCRIPT`). -/
def SYNC_SCRIPT : String := "/home/vanya/scripts/sync-qdrant-to-vps.sh"

/-- Default path of the reverse sync script (`SYNC_SCRIPT_REVERSE`). -/
def SYNC_SCRIPT_REVERSE : String := "/home/vanya/scripts/sync-qdrant-from-vps.sh"

/-- The `timeout=1800` argument of `subprocess.run` in `run_sync_script`
(30 minutes). -/
def SYNC_TIMEOUT_SECONDS : Nat := 1800

/-- Outcome of `subprocess.run(cmd, capture_output=True, text=True,
timeout=1800)`: normal completion with exit code and captured streams,
`subprocess.TimeoutExpired`, or any other exception (e.g. a missing
executable). -/
inductive ProcOutcome where
  | completed (returncode : Int) (stdout stderr : String)
  | timeoutExpired
  | failure (msg : String)
deriving DecidableEq

/-- Return value of `run_sync_script` (server.py lines 143-172): the keys
of the returned dict, absent keys being `none`. -/
structure SyncResult where
  success : Bool
  returncode : Option Int
  stdout : Option String
  stderr : Option String
  error : Option String
deriving DecidableEq

/-- `run_sync_script(args, script_path)` (server.py lines 143-172).
`exec` is the operating system: it maps the command line
`[script] + args` to a process outcome. -/
def run_sync_script (exec : List String → ProcOutcome) (args : List String)
    (script : String) : SyncResult :=
  match exec (script :: args) with
  | .completed rc out err =>
      { success := rc == 0
        returncode := some rc
        stdout := some out
        stderr := some err
        error := none }
  | .timeoutExpired =>
      { success := false
        returncode := none
        stdout := none
        stderr := none
        error := some "Sync operation timed out after 30 minutes" }
  | .failure e =>
      { success := false
        returncode := none
        stdout := none
        stderr := none
        error := some e }

/-- What a full-sync tool branch does: either reply with the
`{"error": ..., "hint": ...}` payload, or call `run_sync_script` on a
script path with an argument list. -/
inductive ToolOutcome where
  | errorPayload (error hint : String)
  | syncInvoked (script : String) (args : List String)
deriving DecidableEq

/-- The `qdrant_sync_all` branch of `call_tool` (server.py lines
379-388).  `confirm` is `arguments.get("confirm", False)`: `none` models
an absent key. -/
def dispatch_sync_all (confirm : Option Bool) : ToolOutcome :=
  if !(confirm.getD false) then
    .errorPayload "Confirmation required. Set confirm=true to proceed with full sync."
      "This will sync all collections from local to VPS and may take 5-10 minutes."
  else
    .syncInvoked SYNC_SCRIPT []

/-- The `qdrant_sync_from_vps_all` branch of `call_tool` (server.py lines
488-497). -/
def dispatch_sync_from_vps_all (confirm : Option Bool) : ToolOutcome :=
  if !(confirm.getD false) then
    .errorPayload "Confirmation required. Set confirm=true to proceed with full sync from VPS."
      "This will sync all collections from VPS to local and may take 5-10 minutes."
  else
    .syncInvoked SYNC_SCRIPT_REVERSE []

/-- Outcome of reading one log file (the `try` body of `get_recent_logs`):
content and `os.path.getsize` result, or the raised exception's text. -/
inductive ReadOutcome where
  | ok (content : String) (size : Int)
  | err (msg : String)
deriving DecidableEq

/-- The log directory as seen by `get_recent_logs`: the paths returned by
`glob.glob(LOG_DIR + "/qdrant-sync-*.log")`, each with the outcome of
reading it. -/
structure LogDir where
  files : List (String × ReadOutcome)

/-- One element of the list returned by `get_recent_logs`. -/
inductive LogEntry where
  | ok (file timestamp : String) (size_bytes : Int) (content : String)
  | err (file error : String)
deriving DecidableEq

/-- `os.path.basename` followed by the two `.replace` calls of server.py
lines 187-188. -/
def logTimestamp (path : String) : String :=
  (((path.splitOn "/").getLastD path).replace "qdrant-sync-" "").replace ".log" ""

/-- The entry built for one log file (server.py lines 181-200). -/
def logEntryOf : String × ReadOutcome → LogEntry
  | (p, .ok content size) => .ok p (logTimestamp p) size content
  | (p, .err m) => .err p m

/-- Python list slicing `xs[:n]` for an `Int` bound: a negative bound
counts from the end (clipped at zero). -/
def pythonTake {α : Type} (n : Int) (xs : List α) : List α :=
  if 0 ≤ n then xs.take n.toNat
  else xs.take (xs.length - (-n).toNat)

/-- `get_recent_logs(count)` (server.py lines 175-202):
`sorted(glob.glob(pattern), reverse=True)[:count]`, then one entry per
file. -/
def get_recent_logs (count : Int) (dir : LogDir) : List LogEntry :=
  let chosen := pythonTake count (sortBy (fun a b => strLe b.1 a.1) dir.files)
  chosen.map logEntryOf

/-- The arguments of the `qdrant_sync_logs` tool; `none` models an absent
key. -/
structure LogsArgs where
  count : Option Int
  latest_only : Option Bool
deriving DecidableEq

/-- The count actually passed to `get_recent_logs` by the
`qdrant_sync_logs` branch (server.py lines 404-411):
`count = min(arguments.get("count", 3), 10)`, then forced to 1 when
`latest_only`. -/
def effectiveLogCount (args : LogsArgs) : Int :=
  let c := min (args.count.getD 3) 10
  if args.latest_only.getD false then 1 else c

/-- The `qdrant_sync_logs` branch of `call_tool`. -/
def dispatch_sync_logs (args : LogsArgs) (dir : LogDir) : List LogEntry :=
  get_recent_logs (effectiveLogCount args) dir

/-- A 200 response for a collection with `points` points (detail body
complete, status `green`). -/
def infoOk (points : Int) : HttpOutcome CollectionInfoBody :=
  .ok 200 ⟨some "green", some points, some points, some points⟩

/-- A local store holding exactly collections `A` (10 points) and `B`
(5 points). -/
def storeLocalAB : Store :=
  { url := "http://localhost:6335"
    collectionsResp := .ok 200 ⟨[⟨some "A"⟩, ⟨some "B"⟩]⟩
    infoResp := fun n =>
      match n with
      | some "A" => infoOk 10
      | some "B" => infoOk 5
      | _ => .ok 404 ⟨none, none, none, none⟩ }

/-- A remote (VPS) store holding exactly collections `A` (10 points) and
`C` (3 points). -/
def storeVpsAC : Store :=
  { url := "http://74.50.49.35:6333"
    collectionsResp := .ok 200 ⟨[⟨some "A"⟩, ⟨some "C"⟩]⟩
    infoResp := fun n =>
      match n with
      | some "A" => infoOk 10
      | some "C" => infoOk 3
      | _ => .ok 404 ⟨none, none, none, none⟩ }

/-- Unfolding of the comparison loop: the accumulator after folding a
name list is the initial accumulator extended by the mapped entries, the
summed points of both sides, and the count of out-of-sync entries. -/
theorem compare_foldl_spec (l v : List CollInfo) (names : List (Option String)) :
    ∀ acc : CompareAcc,
      (names.foldl (compareStep l v) acc).comparison
          = acc.comparison ++ names.map (mkEntry l v)
      ∧ (names.foldl (compareStep l v) acc).total_local_points
          = acc.total_local_points + ((names.map (mkEntry l v)).map Entry.local_points).sum
      ∧ (names.foldl (compareStep l v) acc).total_vps_points
          = acc.total_vps_points + ((names.map (mkEntry l v)).map Entry.vps_points).sum
      ∧ (names.foldl (compareStep l v) acc).out_of_sync
          = acc.out_of_sync
            + ((names.map (mkEntry l v)).filter (fun e => !e.in_sync)).length := by
  induction names with
  | nil => intro acc; simp
  | cons n ns ih =>
      intro acc
      obtain ⟨h1, h2, h3, h4⟩ := ih (compareStep l v acc n)
      rw [List.foldl_cons]
      refine ⟨?_, ?_, ?_, ?_⟩
      · rw [h1]; simp [compareStep]
      · rw [h2]; simp [compareStep]; ring
      · rw [h3]; simp [compareStep]; ring
      · rw [h4]
        simp only [compareStep, List.map_cons, List.filter_cons]
        cases h : (mkEntry l v n).in_sync
        · simp [h]
          omega
        · simp [h]

/-- The entry list of the all-collections comparison is exactly the name
union mapped through `mkEntry`. -/
theorem compare_all_collections_eq (ls vs : Store) (now : String) :
    (qdrant_compare_all ls vs now).collections
      = (allNames (get_all_collections_with_counts ls) (get_all_collections_with_counts vs)).map
          (mkEntry (get_all_collections_with_counts ls) (get_all_collections_with_counts vs)) := by
  have h := (compare_foldl_spec (get_all_collections_with_counts ls)
    (get_all_collections_with_counts vs)
    (allNames (get_all_collections_with_counts ls) (get_all_collections_with_counts vs))
    ⟨[], 0, 0, 0⟩).1
  simpa [qdrant_compare_all] using h

/-- The out-of-sync counter of the all-collections comparison counts the
mapped entries whose in_sync flag is false. -/
theorem compare_all_out_of_sync_eq (ls vs : Store) (now : String) :
    (qdrant_compare_all ls vs now).summary.out_of_sync
      = (((allNames (get_all_collections_with_counts ls) (get_all_collections_with_counts vs)).map
            (mkEntry (get_all_collections_with_counts ls) (get_all_collections_with_counts vs))).filter
          (fun e => !e.in_sync)).length := by
  have h := (compare_foldl_spec (get_all_collections_with_counts ls)
    (get_all_collections_with_counts vs)
    (allNames (get_all_collections_with_counts ls) (get_all_collections_with_counts vs))
    ⟨[], 0, 0, 0⟩).2.2.2
  simpa [qdrant_compare_all] using h

/-- Claim C1: with the local store connected holding exactly A (10
points) and B (5 points), and the remote store connected holding exactly
A (10 points) and C (3 points), the all-collections compare yields
exactly the three entries A, B, C in name order — A in sync with
difference 0, B local-only with difference 5, C present only on the VPS
side with difference -3 — and a summary with total_collections = 3,
out_of_sync = 2 and total_difference = 2. -/
theorem c1_compare_all_scenario :
    (qdrant_compare_all storeLocalAB storeVpsAC "2025-11-23T12:00:00").collections
      = [⟨some "A", 10, 10, 0, true, false, false⟩,
         ⟨some "B", 5, 0, 5, false, true, false⟩,
         ⟨some "C", 0, 3, -3, false, false, true⟩]
    ∧ (qdrant_compare_all storeLocalAB storeVpsAC "2025-11-23T12:00:00").summary.total_collections = 3
    ∧ (qdrant_compare_all storeLocalAB storeVpsAC "2025-11-23T12:00:00").summary.out_of_sync = 2
    ∧ (qdrant_compare_all storeLocalAB storeVpsAC "2025-11-23T12:00:00").summary.total_difference = 2 := by
  decide

/-- Claim C4: every entry of the all-collections comparison with
in_sync = true has local_only = false, remote_only (vps_only) = false
and difference = 0. -/
theorem c4_in_sync_invariant (ls vs : Store) (now : String) (e : Entry)
    (he : e ∈ (qdrant_compare_all ls vs now).collections)
    (hs : e.in_sync = true) :
    e.local_only = false ∧ e.vps_only = false ∧ e.difference = 0 := by
  rw [compare_all_collections_eq] at he
  obtain ⟨n, _, rfl⟩ := List.mem_map.mp he
  simp only [mkEntry, Bool.and_eq_true, beq_iff_eq, Bool.not_eq_true'] at hs
  obtain ⟨⟨hpts, hlm⟩, hvm⟩ := hs
  refine ⟨?_, ?_, ?_⟩
  · simpa [mkEntry] using hvm
  · simpa [mkEntry] using hlm
  · simp [mkEntry, hpts]

/-- Claim C5: in every all-collections comparison the summary's
total_difference equals total_local_points minus total_vps_points, and
out_of_sync equals the number of entries whose in_sync flag is false. -/
theorem c5_summary_consistency (ls vs : Store) (now : String) :
    (qdrant_compare_all ls vs now).summary.total_difference
      = (qdrant_compare_all ls vs now).summary.total_local_points
        - (qdrant_compare_all ls vs now).summary.total_vps_points
    ∧ (qdrant_compare_all ls vs now).summary.out_of_sync
      = ((qdrant_compare_all ls vs now).collections.filter (fun e => !e.in_sync)).length := by
  constructor
  · rfl
  · rw [compare_all_out_of_sync_eq, compare_all_collections_eq]

/-- Witness for C4 at the C1 scenario: the A entry is in sync, and the
invariant instantiates to it. -/
theorem c4_in_sync_invariant_witness :
    (⟨some "A", 10, 10, 0, true, false, false⟩ : Entry).local_only = false
    ∧ (⟨some "A", 10, 10, 0, true, false, false⟩ : Entry).vps_only = false
    ∧ (⟨some "A", 10, 10, 0, true, false, false⟩ : Entry).difference = 0 :=
  c4_in_sync_invariant storeLocalAB storeVpsAC "2025-11-23T12:00:00"
    ⟨some "A", 10, 10, 0, true, false, false⟩ (by decide) rfl

/-- Counterexample to C2 as stated: two calls with identical store
responses but made at different wall-clock instants return reports that
differ (in the timestamp field), both for the status operation and for
the all-collections compare. -/
theorem c2_identical_reports_counterexample :
    qdrant_sync_status (.ok 200 ⟨[]⟩) (.exn "connection refused")
        "http://localhost:6335" "http://74.50.49.35:6333" "2025-11-23T10:00:00"
      ≠ qdrant_sync_status (.ok 200 ⟨[]⟩) (.exn "connection refused")
        "http://localhost:6335" "http://74.50.49.35:6333" "2025-11-23T10:00:05"
    ∧ qdrant_compare_all storeLocalAB storeVpsAC "2025-11-23T10:00:00"
      ≠ qdrant_compare_all storeLocalAB storeVpsAC "2025-11-23T10:00:05" := by
  constructor
  · intro h
    have := congrArg StatusResult.timestamp h
    simp [qdrant_sync_status] at this
  · intro h
    have := congrArg CompareAllResult.timestamp h
    simp [qdrant_compare_all] at this

/-- Claim C2 (amended): with identical store responses, two status calls
agree on every field except the timestamp, two all-collections compare
calls agree on the summary and the entry list (every field except the
timestamp), and two single-collection compare calls return fully
identical reports. -/
theorem c2_idempotent_up_to_timestamp (lresp vresp : HttpOutcome CollectionsBody)
    (lurl vurl t1 t2 : String) (ls vs : Store) (name : String)
    (lr vr : HttpOutcome CollectionInfoBody) :
    (qdrant_sync_status lresp vresp lurl vurl t1).local_status
        = (qdrant_sync_status lresp vresp lurl vurl t2).local_status
    ∧ (qdrant_sync_status lresp vresp lurl vurl t1).vps_status
        = (qdrant_sync_status lresp vresp lurl vurl t2).vps_status
    ∧ (qdrant_sync_status lresp vresp lurl vurl t1).sync_ready
        = (qdrant_sync_status lresp vresp lurl vurl t2).sync_ready
    ∧ (qdrant_compare_all ls vs t1).summary = (qdrant_compare_all ls vs t2).summary
    ∧ (qdrant_compare_all ls vs t1).collections = (qdrant_compare_all ls vs t2).collections
    ∧ qdrant_compare_single name lr vr = qdrant_compare_single name lr vr :=
  ⟨rfl, rfl, rfl, rfl, rfl, rfl⟩

/-- Counterexample to C3 as stated: a count argument of 0 (and likewise
-5) passes through `min(count, 10)` unclamped, so the effective count
handed to the log listing is below 1. -/
theorem c3_clamp_counterexample :
    effectiveLogCount ⟨some 0, none⟩ = 0
    ∧ ¬(1 ≤ effectiveLogCount ⟨some 0, none⟩)
    ∧ effectiveLogCount ⟨some (-5), none⟩ = -5 := by
  decide

/-- Claim C3 (amended): the caller-facing layer clamps the count only
from above — the effective count never exceeds 10, and whenever the
supplied count (after defaulting to 3) is at least 1 it stays at least
1; counts below 1 pass through unclamped. -/
theorem c3_log_count_clamped_above (args : LogsArgs)
    (h : 1 ≤ args.count.getD 3) :
    1 ≤ effectiveLogCount args ∧ effectiveLogCount args ≤ 10 := by
  unfold effectiveLogCount
  cases hl : args.latest_only.getD false
  · simp [hl]
    omega
  · simp [hl]

/-- Witness for C3 (amended) at count = 5, latest_only = false. -/
theorem c3_log_count_clamped_above_witness :
    1 ≤ effectiveLogCount ⟨some 5, some false⟩
    ∧ effectiveLogCount ⟨some 5, some false⟩ ≤ 10 :=
  c3_log_count_clamped_above ⟨some 5, some false⟩ (by decide)

/-- Claim C6: a full-sync operation (forward or reverse) whose confirm
argument is absent or false replies with the error-plus-hint payload and
never reaches `run_sync_script`. -/
theorem c6_confirmation_gating (confirm : Option Bool)
    (h : confirm = none ∨ confirm = some false) :
    dispatch_sync_all confirm
      = .errorPayload "Confirmation required. Set confirm=true to proceed with full sync."
          "This will sync all collections from local to VPS and may take 5-10 minutes."
    ∧ dispatch_sync_from_vps_all confirm
      = .errorPayload "Confirmation required. Set confirm=true to proceed with full sync from VPS."
          "This will sync all collections from VPS to local and may take 5-10 minutes."
    ∧ (∀ s a, dispatch_sync_all confirm ≠ .syncInvoked s a)
    ∧ (∀ s a, dispatch_sync_from_vps_all confirm ≠ .syncInvoked s a) := by
  rcases h with h | h <;> subst h <;>
    exact ⟨rfl, rfl, fun s a hc => by simp [dispatch_sync_all] at hc,
      fun s a hc => by simp [dispatch_sync_from_vps_all] at hc⟩

/-- Witness for C6 at an absent confirm argument. -/
theorem c6_confirmation_gating_witness :
    dispatch_sync_all none
      = .errorPayload "Confirmation required. Set confirm=true to proceed with full sync."
          "This will sync all collections from local to VPS and may take 5-10 minutes."
    ∧ dispatch_sync_from_vps_all none
      = .errorPayload "Confirmation required. Set confirm=true to proceed with full sync from VPS."
          "This will sync all collections from VPS to local and may take 5-10 minutes." :=
  ⟨(c6_confirmation_gating none (Or.inl rfl)).1,
   (c6_confirmation_gating none (Or.inl rfl)).2.1⟩

/-- Claim C7: the connectivity probe is total over store responses — an
HTTP 200 yields a connected report whose count is the length of the
parsed name list, any other status code yields an error report carrying
the code, a transport exception yields an unreachable report carrying
its description, and every connected report satisfies
collection_count = length collections. -/
theorem c7_probe_total (url : String) (resp : HttpOutcome CollectionsBody) :
    (∀ body, resp = .ok 200 body →
        check_qdrant_connectivity url resp
          = .connected url body.collections.length (body.collections.map CollEntry.name))
    ∧ (∀ code body, resp = .ok code body → code ≠ 200 →
        check_qdrant_connectivity url resp = .error url ("HTTP " ++ toString code))
    ∧ (∀ msg, resp = .exn msg →
        check_qdrant_connectivity url resp = .unreachable url msg)
    ∧ (∀ u n cs, check_qdrant_connectivity url resp = .connected u n cs →
        n = cs.length) := by
  refine ⟨?_, ?_, ?_, ?_⟩
  · rintro body rfl
    simp [check_qdrant_connectivity]
  · rintro code body rfl hne
    simp [check_qdrant_connectivity, hne]
  · rintro msg rfl
    rfl
  · intro u n cs h
    cases resp with
    | ok code body =>
        by_cases hc : code = 200
        · subst hc
          simp [check_qdrant_connectivity] at h
          obtain ⟨_, h2, h3⟩ := h
          subst h2
          subst h3
          simp
        · simp [check_qdrant_connectivity, hc] at h
    | exn msg => simp [check_qdrant_connectivity] at h

/-- Witness for C7: a 200 response with one named collection probes to a
connected report with count 1. -/
theorem c7_probe_total_witness :
    check_qdrant_connectivity "http://localhost:6335" (.ok 200 ⟨[⟨some "A"⟩]⟩)
      = .connected "http://localhost:6335" 1 [some "A"] :=
  (c7_probe_total "http://localhost:6335" (.ok 200 ⟨[⟨some "A"⟩]⟩)).1 ⟨[⟨some "A"⟩]⟩ rfl

/-- Claim C8: the sync driver's result always reflects the child process
faithfully — completion yields success iff the exit code is 0 together
with the exit code and both captured streams, the 1800-second timeout
yields failure with the timeout description and no exit code, and any
other launch failure yields failure with its description. -/
theorem c8_sync_driver_result (exec : List String → ProcOutcome)
    (args : List String) (script : String) :
    SYNC_TIMEOUT_SECONDS = 1800
    ∧ (∀ rc out err, exec (script :: args) = .completed rc out err →
        run_sync_script exec args script
          = ⟨rc == 0, some rc, some out, some err, none⟩)
    ∧ (exec (script :: args) = .timeoutExpired →
        run_sync_script exec args script
          = ⟨false, none, none, none,
             some "Sync operation timed out after 30 minutes"⟩)
    ∧ (∀ msg, exec (script :: args) = .failure msg →
        run_sync_script exec args script = ⟨false, none, none, none, some msg⟩) := by
  refine ⟨rfl, ?_, ?_, ?_⟩
  · intro rc out err h
    simp [run_sync_script, h]
  · intro h
    simp [run_sync_script, h]
  · intro msg h
    simp [run_sync_script, h]

/-- Witness for C8 at a process that exits 0. -/
theorem c8_sync_driver_result_witness :
    run_sync_script (fun _ => .completed 0 "synced 12 collections" "") [] SYNC_SCRIPT
      = ⟨true, some 0, some "synced 12 collections", some "", none⟩ :=
  (c8_sync_driver_result (fun _ => .completed 0 "synced 12 collections" "")
    [] SYNC_SCRIPT).2.1 0 "synced 12 collections" "" rfl

/-- Claim C9: with latest_only = true the log branch forces the
effective count to 1, so at most one log entry is returned. -/
theorem c9_latest_only_forces_one (args : LogsArgs) (dir : LogDir)
    (h : args.latest_only = some true) :
    effectiveLogCount args = 1 ∧ (dispatch_sync_logs args dir).length ≤ 1 := by
  have he : effectiveLogCount args = 1 := by
    simp [effectiveLogCount, h]
  refine ⟨he, ?_⟩
  simp only [dispatch_sync_logs, he, get_recent_logs, pythonTake]
  simp [List.length_take]

/-- Witness for C9 at count = 7, latest_only = true over a two-file log
directory. -/
theorem c9_latest_only_forces_one_witness :
    effectiveLogCount ⟨some 7, some true⟩ = 1
    ∧ (dispatch_sync_logs ⟨some 7, some true⟩
        ⟨[("/home/vanya/logs/qdrant-sync-2025-11-22.log", .ok "ok" 2),
          ("/home/vanya/logs/qdrant-sync-2025-11-23.log", .ok "ok" 2)]⟩).length ≤ 1 :=
  c9_latest_only_forces_one ⟨some 7, some true⟩
    ⟨[("/home/vanya/logs/qdrant-sync-2025-11-22.log", .ok "ok" 2),
      ("/home/vanya/logs/qdrant-sync-2025-11-23.log", .ok "ok" 2)]⟩ rfl

/-- Claim C10: when the per-collection stat fetch yields an error dict on
both stores (collection absent or fetch failed), both point counts
default to 0 and the single-collection compare reports in_sync = true
with difference = 0. -/
theorem c10_absent_both_sides (name : String)
    (lresp vresp : HttpOutcome CollectionInfoBody)
    (hl : ∃ e, get_collection_info (some name) lresp = .err (some name) e)
    (hv : ∃ e, get_collection_info (some name) vresp = .err (some name) e) :
    (qdrant_compare_single name lresp vresp).in_sync = true
    ∧ (qdrant_compare_single name lresp vresp).difference = 0 := by
  obtain ⟨e1, h1⟩ := hl
  obtain ⟨e2, h2⟩ := hv
  simp [qdrant_compare_single, h1, h2, CollInfo.points]

/-- Witness for C10: both stores unreachable for the collection. -/
theorem c10_absent_both_sides_witness :
    (qdrant_compare_single "ghost" (.exn "refused") (.exn "refused")).in_sync = true
    ∧ (qdrant_compare_single "ghost" (.exn "refused") (.exn "refused")).difference = 0 :=
  c10_absent_both_sides "ghost" (.exn "refused") (.exn "refused")
    ⟨"refused", rfl⟩ ⟨"refused", rfl⟩

end QdrantSync
